import Mathlib

/-!
Verification development for the RAG retrieval engine of the repository
(`apps/ia/services/rag_service.py` and `apps/ia/tools/rag_search_tool.py`),
as a shallow embedding in Lean 4.

Modelling conventions:
* Python strings are Lean `String`s; Python ints are `Int` (or `Nat` where the
  source value is provably non-negative, such as list lengths).
* The metadata dictionary `dict[str, Any]` is modelled as an association list
  `List (String × String)`; the only key the modelled code reads is `'source'`.
* Third-party collaborators whose code is not in the repository (numpy's global
  random generator, Python's `hash`, langchain's text splitter, the FAISS
  vector store) are modelled from the spec, each marked `Modelled from the
  spec:` in its doc comment; where a claim does not depend on their internals
  they are abstract parameters instead.
* Exceptions are modelled explicitly: a function body that can raise returns a
  `RAGState × Option RagError` pair (the second component is the exception
  escaping the body, `none` if it returns normally), and the public method that
  wraps the body in `try/except` turns that into a `RagOutcome` recording
  whether an error was raised to the caller or merely caught and logged.
-/

/-- Errors of the RAG engine's error taxonomy that are reachable in
`add_documents`: `ArityMismatch` is the `ValueError` raised by
`zip(texts, metadatas, strict=True)` on mismatched lengths, `DimensionMismatch`
the error raised by the vector index when an inserted vector's length disagrees
with the index's fixed dimension. -/
inductive RagError where
  | ArityMismatch
  | DimensionMismatch
deriving DecidableEq, Repr

/-- What the caller of a public service method observes: the method returned
normally (`ok`), the method caught an internal exception `e`, logged it and
returned normally (`logged e`), or the exception `e` propagated out of the
method to the caller (`raised e`). -/
inductive RagOutcome where
  | ok
  | logged (e : RagError)
  | raised (e : RagError)
deriving DecidableEq, Repr

/-- A langchain `Document`: `page_content` plus a metadata mapping.  After
chunking, each chunk is again a `Document` carrying a copy of its source
document's metadata. -/
structure Chunk where
  page_content : String
  metadata : List (String × String)
deriving DecidableEq, Repr

/-- Modelled from the spec: the FAISS vector index stores (vector, chunk)
entries and has a fixed dimension, set at the first insertion. -/
structure VectorStore where
  dim : Nat
  entries : List (List Int × Chunk)
deriving DecidableEq, Repr

/-- Modelled from the spec: inserting into an existing index appends the new
entries; a vector whose length disagrees with the index's fixed dimension
fails the whole insertion with `DimensionMismatch`, leaving the existing
entries untouched. -/
def VectorStore.insertBatch (vs : VectorStore) (items : List (List Int × Chunk)) :
    Except RagError VectorStore :=
  if items.all (fun it => it.1.length = vs.dim) then
    .ok { vs with entries := vs.entries ++ items }
  else
    .error .DimensionMismatch

/-- Modelled from the spec: `FAISS.from_documents` builds a fresh index whose
dimension is fixed by the first inserted vector. -/
def VectorStore.fromItems (items : List (List Int × Chunk)) :
    Except RagError VectorStore :=
  match items with
  | [] => .ok ⟨0, []⟩
  | it :: rest => VectorStore.insertBatch ⟨it.1.length, []⟩ (it :: rest)

/-- The mutable state of a `RAGService` instance: the in-memory chunk inventory
`self.documents` and the optional vector store `self.vector_store`. -/
structure RAGState where
  documents : List Chunk
  vector_store : Option VectorStore
deriving DecidableEq, Repr

/-- Translation of `RAGService.__init__`: the knowledge base starts empty, with no vector
store (`self.vector_store = None`, `self.documents = []`). -/
def RAGService_init : RAGState := ⟨[], none⟩

/-- Translation of `RAGService.clear_knowledge_base`: `self.documents.clear()` and
`self.vector_store = None`. -/
def clear_knowledge_base (_st : RAGState) : RAGState := ⟨[], none⟩

/-- Translation of `RAGService.get_document_count`: `len(self.documents)`. -/
def get_document_count (st : RAGState) : Nat := st.documents.length

/-- Python's `str.strip()` (standard library, modelled structurally so the
kernel can evaluate it): drop whitespace characters from both ends. -/
def py_strip (s : String) : String :=
  ⟨((s.data.dropWhile Char.isWhitespace).reverse.dropWhile Char.isWhitespace).reverse⟩

/-- Modelled from the spec: numpy's global pseudo-random generator, used by the
fallback embedder.  `seedState s` is the internal generator state set by
`np.random.seed(s)`; `drawNormal n st` draws `n` standard-normal samples from
state `st`, returning the samples and the successor state.  Sample values are
non-normative (the spec fixes the pipeline, not the numbers), so the state and
the samples are abstract: the state is a `Nat` and samples are `Int`s. -/
structure NpRandom where
  seedState : Nat → Nat
  drawNormal : Nat → Nat → List Int × Nat

/-- Translation of `SimpleEmbeddings._simple_embed`: `hash_val = hash(text.lower())`;
`np.random.seed(abs(hash_val) % (2**31))`;
`return np.random.normal(0, 1, 384).tolist()`.  `hash` is Python's built-in
string hash (a signed integer, stable within one process run), passed in as an
abstract parameter; `_rngState` is the global numpy generator state at entry —
unused, because `np.random.seed` overwrites it before the draw. -/
def simple_embed (R : NpRandom) (hash : String → Int) (text : String)
    (_rngState : Nat) : List Int × Nat :=
  let hash_val := hash (text.toLower)
  let seeded := R.seedState (hash_val.natAbs % 2 ^ 31)
  R.drawNormal 384 seeded

/-- Translation of `SimpleEmbeddings.embed_query`: `return self._simple_embed(text)`. -/
def embed_query (R : NpRandom) (hash : String → Int) (text : String)
    (rngState : Nat) : List Int × Nat :=
  simple_embed R hash text rngState

/-- Translation of `SimpleEmbeddings.embed_documents`: `[self._simple_embed(text) for text in
texts]`, with the global generator state threaded through the successive
calls. -/
def embed_documents (R : NpRandom) (hash : String → Int) :
    List String → Nat → List (List Int) × Nat
  | [], rngState => ([], rngState)
  | t :: ts, rngState =>
    let (v, st1) := simple_embed R hash t rngState
    let (vs, st2) := embed_documents R hash ts st1
    (v :: vs, st2)

/-- The embedding pipeline exactly as the spec words it (§4.2): "lower-case the
text; compute an integer hash of it; seed a pseudo-random generator with
`hash mod 2^31`; draw D samples from a standard normal distribution as the
vector", with D = 384 and `mod` the mathematical (non-negative-result)
remainder that Python's `%` computes. -/
def specEmbedSteps (R : NpRandom) (hash : String → Int) (text : String) :
    List Int :=
  (R.drawNormal 384 (R.seedState ((hash text.toLower) % (2 ^ 31 : Int)).toNat)).1

/-- The embedding pipeline with the seed amended to `|hash| mod 2^31`: the
absolute value of the integer hash, reduced mod 2^31. -/
def specEmbedStepsAbs (R : NpRandom) (hash : String → Int) (text : String) :
    List Int :=
  (R.drawNormal 384
    (R.seedState (((hash text.toLower).natAbs : Int) % (2 ^ 31 : Int)).toNat)).1

/-- Translation of `RAGService.similarity_search`: returns `[]` when `self.vector_store is
None or not query.strip() or k <= 0`, otherwise delegates to the vector
store's search.  `idxSearch` abstracts `FAISS.similarity_search` (ranking is
non-normative here); `embed` abstracts the configured embedder's query
embedding, which the store applies to `query`. -/
def similarity_search (idxSearch : VectorStore → List Int → Int → List Chunk)
    (embed : String → List Int) (st : RAGState) (query : String) (k : Int) :
    List Chunk :=
  match st.vector_store with
  | none => []
  | some vs =>
    if py_strip query = "" ∨ k ≤ 0 then []
    else idxSearch vs (embed query) k

/-- The accumulation loop of `RAGService.get_relevant_context`: walks the hits
in rank order with the running token estimate `current_tokens`, appending full
chunk texts while within `max_tokens`, and at the first overflowing chunk
appends its `remaining_chars`-character prefix when `remaining_chars > 100`,
then stops. -/
def context_loop : List Chunk → Int → Int → List String
  | [], _, _ => []
  | doc :: rest, max_tokens, current_tokens =>
    let doc_tokens : Int := (doc.page_content.length / 4 : Nat)
    if current_tokens + doc_tokens ≤ max_tokens then
      doc.page_content :: context_loop rest max_tokens (current_tokens + doc_tokens)
    else
      let remaining_chars := (max_tokens - current_tokens) * 4
      if remaining_chars > 100 then [doc.page_content.take remaining_chars.toNat]
      else []

/-- Translation of `RAGService.get_relevant_context`: `docs = self.similarity_search(query,
k=5)`, then the greedy token-budget loop, then `'\n\n'.join(context_parts)`. -/
def get_relevant_context (idxSearch : VectorStore → List Int → Int → List Chunk)
    (embed : String → List Int) (st : RAGState) (query : String)
    (max_tokens : Int) : String :=
  String.intercalate "\n\n"
    (context_loop (similarity_search idxSearch embed st query 5) max_tokens 0)

/-- The Context Assembler exactly as the spec words it (§4.5), phrased with the
remaining budget: tokens are estimated as `len // 4`; a hit whose estimate fits
the remaining budget is appended in full and the budget decreases; at the first
hit that would exceed the budget, a prefix of `remaining * 4` characters is
appended when that exceeds 100 characters, and assembly terminates either
way. -/
def assembleSpec : List String → Int → List String
  | [], _ => []
  | t :: rest, remaining =>
    let tok : Int := (t.length / 4 : Nat)
    if tok ≤ remaining then t :: assembleSpec rest (remaining - tok)
    else if remaining * 4 > 100 then [t.take (remaining * 4).toNat]
    else []

/-- The filtering loop of `RAGService.add_documents`: texts that are empty or
whitespace-only are skipped with a warning (paired with their metadata); the
rest are kept.  (`text is None` is unrepresentable for Lean strings.) -/
def valid_pairs (texts : List String) (metadatas : List (List (String × String))) :
    List (String × List (String × String)) :=
  (texts.zip metadatas).filter (fun p => ¬ py_strip p.1 = "")

/-- The chunking loop of `RAGService.add_documents`: each valid document is
split by `self.text_splitter` (abstracted as `split`), and every chunk carries
a copy of its document's metadata, as `split_documents` does. -/
def chunked_of (split : String → List String)
    (pairs : List (String × List (String × String))) : List Chunk :=
  pairs.flatMap (fun p => (split p.1).map (fun c => Chunk.mk c p.2))

/-- The metadata synthesis of `RAGService.add_documents` when `metadatas` is
omitted: `[{'source': f'doc_{uuid4()}'} for _ in texts]`, one fresh id per
text; `uuid` abstracts the sequence of ids `uuid4()` produces. -/
def gen_metadatas (uuid : Nat → String) (texts : List String) :
    List (List (String × String)) :=
  (List.range texts.length).map (fun i => [("source", "doc_" ++ uuid i)])

/-- The tail of `RAGService.add_documents` once `chunked_docs` is built:
`self.documents.extend(chunked_docs)` FIRST, then either
`FAISS.from_documents` (no store yet) or `self.vector_store.add_documents`;
when the insertion raises, the already-extended inventory is kept in the
returned state.  Vectors are produced by embedding each chunk's text, as both
FAISS entry points do with `self.embeddings`. -/
def add_documents_insert (embed : String → List Int) (st : RAGState)
    (chunked_docs : List Chunk) : RAGState × Option RagError :=
  let st1 := { st with documents := st.documents ++ chunked_docs }
  let items := chunked_docs.map (fun c => (embed c.page_content, c))
  match st1.vector_store with
  | none =>
    match VectorStore.fromItems items with
    | .ok vs => ({ st1 with vector_store := some vs }, none)
    | .error e => (st1, some e)
  | some vs =>
    match vs.insertBatch items with
    | .ok vs2 => ({ st1 with vector_store := some vs2 }, none)
    | .error e => (st1, some e)

/-- The body of `RAGService.add_documents` (the code inside its `try`),
translated statement by statement.  The returned pair is (state after the body
ran, exception escaping the body if any).  Note on fidelity:
`zip(texts, metadatas, strict=True)` raises its `ValueError` (modelled as
`ArityMismatch`) at the point during iteration where one iterable runs out;
since the loop only builds the local `valid_docs`/`valid_metadatas` lists and
the first mutation of `self` comes after the loop, raising there is
state-equivalent to checking the lengths up front, as done here. -/
def add_documents_body (split : String → List String) (embed : String → List Int)
    (uuid : Nat → String) (st : RAGState) (texts : List String)
    (metadatas : Option (List (List (String × String)))) :
    RAGState × Option RagError :=
  let metadatas := match metadatas with
    | none => gen_metadatas uuid texts
    | some ms => ms
  if texts.length ≠ metadatas.length then (st, some .ArityMismatch)
  else if valid_pairs texts metadatas = [] then (st, none)
  else add_documents_insert embed st (chunked_of split (valid_pairs texts metadatas))

/-- Translation of `RAGService.add_documents`: the body above wrapped in
`try: ... except Exception as e: logger.error(...)` — every exception the body
raises is caught and logged, and the method returns normally. -/
def add_documents (split : String → List String) (embed : String → List Int)
    (uuid : Nat → String) (st : RAGState) (texts : List String)
    (metadatas : Option (List (List (String × String)))) :
    RAGState × RagOutcome :=
  match add_documents_body split embed uuid st texts metadatas with
  | (st1, none) => (st1, .ok)
  | (st1, some e) => (st1, .logged e)

/-- Modelled from the spec: the configured text splitter
(`RecursiveCharacterTextSplitter(chunk_size=1000, chunk_overlap=200)` — code
outside the repository), per §4.1: length-based splitting of the raw text into
windows of `chunk_size` characters whose starts advance by
`chunk_size - overlap`, so consecutive chunks overlap by `overlap`
characters; a text no longer than `chunk_size` is a single chunk. -/
def splitChars (chunk_size step : Nat) (chars : List Char) : List (List Char) :=
  if _h : chars.length ≤ chunk_size ∨ step = 0 then [chars]
  else chars.take chunk_size :: splitChars chunk_size step (chars.drop step)
termination_by chars.length
decreasing_by
  push_neg at _h
  simp only [List.length_drop]
  omega

/-- Modelled from the spec: `split(text, chunk_size, overlap)` of §4.1 on
strings, with the repository's configured `chunk_size=1000`, `overlap=200`
(step = 800). -/
def split_text (text : String) : List String :=
  (splitChars 1000 (1000 - 200) text.data).map (fun cs => String.mk cs)

/-- The hit-formatting loop shared by `rag_search_function` and
`RAGSearchTool.search`: `for i, doc in enumerate(docs, 1)` builds
`f'Fonte {i} ({source}):\n{content}'` where
`source = doc.metadata.get('source', 'Desconhecido')` and
`content = doc.page_content.strip()`. -/
def format_hits (docs : List Chunk) : List String :=
  docs.enum.map (fun p =>
    "Fonte " ++ toString (p.1 + 1) ++ " ("
      ++ ((p.2.metadata.lookup "source").getD "Desconhecido") ++ "):\n"
      ++ (py_strip p.2.page_content))

/-- The fixed Portuguese message returned when the search yields no hits. -/
def no_info_msg : String :=
  "Nenhuma informação relevante encontrada na base de conhecimento."

/-- Translation of `RAGSearchTool.search`: the underlying
`self.rag_service.similarity_search(query, k=3)` call either returns a hit
list or raises; `result` is that call's outcome (`Except.error msg` when it
raised an exception whose string form is `msg`).  The method never raises: an
empty hit list yields the fixed Portuguese message, an exception yields the
fixed error string, and otherwise the formatted hits are joined by blank
lines. -/
def RAGSearchTool_search (result : Except String (List Chunk)) : String :=
  match result with
  | .error msg => "Erro ao buscar na base de conhecimento: " ++ msg
  | .ok docs =>
    if docs = [] then no_info_msg
    else String.intercalate "\n\n" (format_hits docs)

/-- Translation of `rag_search_function`: it constructs a brand-new `RAGService()` (empty
knowledge base), calls `rag_service.similarity_search(query, k=3)` on it, and
formats the result exactly as `RAGSearchTool.search` does. -/
def rag_search_function (idxSearch : VectorStore → List Int → Int → List Chunk)
    (embed : String → List Int) (query : String) : String :=
  let rag_service := RAGService_init
  let docs := similarity_search idxSearch embed rag_service query 3
  if docs = [] then no_info_msg
  else String.intercalate "\n\n" (format_hits docs)

/-! Concrete instantiations of the abstract collaborators, used by the closed
witness and counterexample theorems. -/

/-- A concrete generator: seeding stores the seed, and each draw returns the
state repeated, leaving the state unchanged. -/
def testRng : NpRandom := ⟨fun s => s, fun n q => (List.replicate n (q : Int), q)⟩

/-- A concrete hash function that is negative, as Python's signed string hash
can be. -/
def constHashNeg : String → Int := fun _ => -1

/-- A concrete splitter: one chunk per document. -/
def split0 : String → List String := fun s => [s]

/-- A concrete embedder: every vector is the 1-dimensional `[0]`. -/
def embed0 : String → List Int := fun _ => [0]

/-- A concrete embedder whose vectors have inconsistent lengths across texts:
the text `"b"` embeds 1-dimensional, everything else 2-dimensional. -/
def embed_ab : String → List Int := fun s => if s = "b" then [0] else [0, 0]

/-- A concrete uuid sequence. -/
def uuid0 : Nat → String := fun n => toString n

/-- A concrete index search that always reports one hit, to witness that the
guard paths of `similarity_search` never consult it. -/
def idxSearchConst : VectorStore → List Int → Int → List Chunk :=
  fun _ _ _ => [⟨"x", []⟩]

/-- A service state holding a (trivial) vector store, so that searches on it
reach the query/k guards. -/
def stWithStore : RAGState := ⟨[], some ⟨1, []⟩⟩

/-- The state after adding `"a"` with `embed_ab` to a fresh service: one chunk
in the inventory, a 2-dimensional vector store with one entry. -/
def st_after_a : RAGState :=
  (add_documents split0 embed_ab uuid0 RAGService_init ["a"] none).1

/-- C5: the claim's pipeline — lower-case, hash, seed with `hash mod 2^31`,
draw 384 normals — disagrees with `_simple_embed` when the integer hash is
negative: the code seeds with `abs(hash) % 2**31`, the claim's `hash mod 2^31`
(Python `%`) gives a different seed.  At `hash = -1` the code's seed is `1`,
the claim's is `2^31 - 1`. -/
theorem C5_counterexample :
    (simple_embed testRng constHashNeg "a" 0).1 ≠
      specEmbedSteps testRng constHashNeg "a" := by
  decide

/-- C5 (amended): for every generator, hash function, input text and incoming
generator state, `_simple_embed` computes exactly: lower-case the text, compute
the integer hash, seed with `|hash| mod 2^31` (absolute value first), and draw
384 standard-normal samples as the vector. -/
theorem C5_simple_embed_follows_spec_steps :
    ∀ (R : NpRandom) (hash : String → Int) (text : String) (rngState : Nat),
      (simple_embed R hash text rngState).1 = specEmbedStepsAbs R hash text := by
  intro R hash text rngState
  simp only [simple_embed, specEmbedStepsAbs]
  have h : (hash text.toLower).natAbs % 2 ^ 31 =
      (((hash text.toLower).natAbs : Int) % (2 ^ 31 : Int)).toNat := by
    omega
  rw [h]

/-- C6: the fallback embedder is deterministic and total within one run: the
vector for `s` does not depend on the incoming generator state (seeding
overwrites it), embedding `[s, s]` in sequence yields two identical vectors,
and every call (including on the empty string) returns a vector of 384
samples. -/
theorem C6_fallback_embedder_deterministic
    (R : NpRandom) (hash : String → Int) (s : String) (st st' : Nat)
    (hLen : ∀ n q, ((R.drawNormal n q).1).length = n) :
    (simple_embed R hash s st).1 = (simple_embed R hash s st').1 ∧
    (embed_documents R hash [s, s] st).1 =
      [(simple_embed R hash s st).1, (simple_embed R hash s st).1] ∧
    ((simple_embed R hash s st).1).length = 384 := by
  refine ⟨rfl, ?_, hLen 384 _⟩
  simp only [embed_documents, simple_embed]

/-- C6 witness: the determinism and totality facts at a concrete generator and
hash, on the empty string. -/
theorem C6_witness :
    (simple_embed testRng constHashNeg "" 0).1 =
      (simple_embed testRng constHashNeg "" 7).1 ∧
    (embed_documents testRng constHashNeg ["", ""] 0).1 =
      [(simple_embed testRng constHashNeg "" 0).1,
       (simple_embed testRng constHashNeg "" 0).1] ∧
    ((simple_embed testRng constHashNeg "" 0).1).length = 384 :=
  C6_fallback_embedder_deterministic testRng constHashNeg "" 0 7
    (fun n q => by simp [testRng])

/-- C3: `similarity_search(q, k)` returns `[]` — for every index search
function and embedder, so neither is consulted — on a freshly constructed
service, on a just-cleared service, whenever the query is empty or
whitespace-only, and whenever `k ≤ 0`. -/
theorem C3_similarity_search_empty_guards
    (idxSearch : VectorStore → List Int → Int → List Chunk)
    (embed : String → List Int) (st : RAGState) (q : String) (k : Int) :
    similarity_search idxSearch embed RAGService_init q k = [] ∧
    similarity_search idxSearch embed (clear_knowledge_base st) q k = [] ∧
    (py_strip q = "" → similarity_search idxSearch embed st q k = []) ∧
    (k ≤ 0 → similarity_search idxSearch embed st q k = []) := by
  refine ⟨rfl, rfl, ?_, ?_⟩ <;>
    · intro h
      unfold similarity_search
      cases st.vector_store with
      | none => rfl
      | some vs => simp [h]

/-- C3 witness: the guards at concrete inputs: a fresh service for any query, a
whitespace query and a non-positive `k` on a service that does hold a vector
store and whose index search would report a hit. -/
theorem C3_witness :
    similarity_search idxSearchConst embed0 RAGService_init "hi" 3 = [] ∧
    similarity_search idxSearchConst embed0 stWithStore "  " 3 = [] ∧
    similarity_search idxSearchConst embed0 stWithStore "hi" 0 = [] :=
  ⟨(C3_similarity_search_empty_guards idxSearchConst embed0 stWithStore "hi" 3).1,
   (C3_similarity_search_empty_guards idxSearchConst embed0 stWithStore "  " 3).2.2.1
     (by decide),
   (C3_similarity_search_empty_guards idxSearchConst embed0 stWithStore "hi" 0).2.2.2
     (by decide)⟩

/-- C10: `rag_search_function` builds a brand-new `RAGService` (empty knowledge
base) on every invocation, so for every query — and whatever index search and
embedder are in play — it returns the fixed Portuguese no-relevant-information
message. -/
theorem C10_rag_search_function_always_empty
    (idxSearch : VectorStore → List Int → Int → List Chunk)
    (embed : String → List Int) (query : String) :
    rag_search_function idxSearch embed query = no_info_msg := rfl

/-- C1: the claim fails on the code: with mismatched `texts`/`metadatas`
counts the `ValueError` from `zip(..., strict=True)` is swallowed by
`add_documents`' catch-all `except`, so the call is NOT fatal to the caller —
it returns normally (the error is only logged) with the state unchanged. -/
theorem C1_counterexample :
    add_documents split0 embed0 uuid0 RAGService_init ["a"] (some []) =
      (RAGService_init, .logged .ArityMismatch) ∧
    ∀ e, (add_documents split0 embed0 uuid0 RAGService_init ["a"] (some [])).2 ≠
      RagOutcome.raised e := by
  refine ⟨by decide, ?_⟩
  intro e
  cases e <;> decide

/-- C1 (amended): for every call to `add_documents` where `texts` and
`metadatas` are both given and their lengths differ, the arity mismatch aborts
the body before any state change, and the resulting error is caught and logged
inside the method — the caller gets a normal return and an unchanged
service state, not an exception. -/
theorem C1_arity_mismatch_is_logged_no_op
    (split : String → List String) (embed : String → List Int)
    (uuid : Nat → String) (st : RAGState) (texts : List String)
    (ms : List (List (String × String))) (h : texts.length ≠ ms.length) :
    add_documents split embed uuid st texts (some ms) =
      (st, .logged .ArityMismatch) := by
  simp [add_documents, add_documents_body, h]

/-- C1 witness: the amended behaviour at a concrete mismatched call. -/
theorem C1_witness :
    add_documents split0 embed0 uuid0 RAGService_init ["a", "b"]
      (some [[("source", "m")]]) = (RAGService_init, .logged .ArityMismatch) :=
  C1_arity_mismatch_is_logged_no_op split0 embed0 uuid0 RAGService_init
    ["a", "b"] [[("source", "m")]] (by decide)

/-- C2: the claim fails on the code for dimension mismatches: because
`self.documents.extend(chunked_docs)` runs before the vector-store insertion,
a `DimensionMismatch` raised at insertion leaves the chunk inventory already
extended — `get_document_count` has changed even though the call aborted.
Concretely: after ingesting `"a"` (2-dimensional vector), ingesting `"b"`
(1-dimensional vector) fails at the index but grows the inventory from 1 to
2. -/
theorem C2_counterexample :
    (add_documents split0 embed_ab uuid0 st_after_a ["b"] none).2 =
      RagOutcome.logged .DimensionMismatch ∧
    get_document_count (add_documents split0 embed_ab uuid0 st_after_a ["b"] none).1 ≠
      get_document_count st_after_a := by
  decide

/-- Every branch of the insertion tail — store creation, store extension,
success or error — keeps the already-extended inventory: the resulting
`documents` are the old ones followed by the batch's chunks. -/
theorem add_documents_insert_documents (embed : String → List Int)
    (st : RAGState) (cd : List Chunk) :
    (add_documents_insert embed st cd).1.documents = st.documents ++ cd := by
  unfold add_documents_insert
  dsimp only
  cases st.vector_store with
  | none =>
    dsimp only
    cases VectorStore.fromItems (cd.map (fun c => (embed c.page_content, c))) <;> rfl
  | some vs =>
    dsimp only
    cases vs.insertBatch (cd.map (fun c => (embed c.page_content, c))) <;> rfl

/-- When the insertion tail errors, the vector store is left exactly as it
was. -/
theorem add_documents_insert_error_store (embed : String → List Int)
    (st : RAGState) (cd : List Chunk) (e : RagError)
    (h : (add_documents_insert embed st cd).2 = some e) :
    (add_documents_insert embed st cd).1.vector_store = st.vector_store := by
  revert h
  unfold add_documents_insert
  dsimp only
  cases st.vector_store with
  | none =>
    dsimp only
    cases VectorStore.fromItems (cd.map (fun c => (embed c.page_content, c))) with
    | ok vs => intro h; simp at h
    | error e2 => intro h; rfl
  | some vs =>
    dsimp only
    cases vs.insertBatch (cd.map (fun c => (embed c.page_content, c))) with
    | ok vs2 => intro h; simp at h
    | error e2 => intro h; rfl

/-- The `try/except` wrapper does not alter the state the body produced. -/
theorem add_documents_fst (split : String → List String)
    (embed : String → List Int) (uuid : Nat → String) (st : RAGState)
    (texts : List String) (mss : Option (List (List (String × String)))) :
    (add_documents split embed uuid st texts mss).1 =
      (add_documents_body split embed uuid st texts mss).1 := by
  unfold add_documents
  rcases add_documents_body split embed uuid st texts mss with ⟨st1, oe⟩
  cases oe <;> rfl

/-- The wrapper logs exactly the exception that escaped the body. -/
theorem add_documents_logged_iff (split : String → List String)
    (embed : String → List Int) (uuid : Nat → String) (st : RAGState)
    (texts : List String) (mss : Option (List (List (String × String))))
    (e : RagError) :
    (add_documents split embed uuid st texts mss).2 = RagOutcome.logged e ↔
      (add_documents_body split embed uuid st texts mss).2 = some e := by
  unfold add_documents
  rcases add_documents_body split embed uuid st texts mss with ⟨st1, oe⟩
  cases oe <;> simp

/-- The `metadatas=None` default resolves to the synthesized per-text
metadata. -/
theorem add_documents_body_resolve (split : String → List String)
    (embed : String → List Int) (uuid : Nat → String) (st : RAGState)
    (texts : List String) (mss : Option (List (List (String × String)))) :
    add_documents_body split embed uuid st texts mss =
      add_documents_body split embed uuid st texts
        (some (mss.getD (gen_metadatas uuid texts))) := by
  cases mss <;> rfl

/-- A `DimensionMismatch` escaping the body leaves the vector store as it was,
with the inventory already extended by the batch's chunks. -/
theorem add_documents_body_dim (split : String → List String)
    (embed : String → List Int) (uuid : Nat → String) (st : RAGState)
    (texts : List String) (ms : List (List (String × String)))
    (h : (add_documents_body split embed uuid st texts (some ms)).2 =
      some RagError.DimensionMismatch) :
    (add_documents_body split embed uuid st texts (some ms)).1.vector_store =
        st.vector_store ∧
    (add_documents_body split embed uuid st texts (some ms)).1.documents =
      st.documents ++ chunked_of split (valid_pairs texts ms) := by
  unfold add_documents_body at h ⊢
  dsimp only at h ⊢
  by_cases h1 : texts.length ≠ ms.length
  · rw [if_pos h1] at h
    simp at h
  · rw [if_neg h1] at h ⊢
    by_cases h2 : valid_pairs texts ms = []
    · rw [if_pos h2] at h
      simp at h
    · rw [if_neg h2] at h ⊢
      exact ⟨add_documents_insert_error_store embed st _ _ h,
        add_documents_insert_documents embed st _⟩

/-- C2 (amended): an arity mismatch aborts the call with the service state
fully unchanged; a dimension mismatch at index insertion leaves the
vector-index entries unchanged, but by then the chunk inventory has already
been extended with the batch's chunks, so `get_document_count` grows by the
batch's chunk count. -/
theorem C2_structural_error_state
    (split : String → List String) (embed : String → List Int)
    (uuid : Nat → String) (st : RAGState) (texts : List String)
    (ms : List (List (String × String)))
    (mss : Option (List (List (String × String)))) :
    (texts.length ≠ ms.length →
      (add_documents split embed uuid st texts (some ms)).1 = st) ∧
    ((add_documents split embed uuid st texts mss).2 =
        RagOutcome.logged .DimensionMismatch →
      (add_documents split embed uuid st texts mss).1.vector_store =
          st.vector_store ∧
      (add_documents split embed uuid st texts mss).1.documents =
        st.documents ++
          chunked_of split
            (valid_pairs texts (mss.getD (gen_metadatas uuid texts)))) := by
  constructor
  · intro h
    simp [add_documents, add_documents_body, h]
  · intro h
    rw [add_documents_logged_iff, add_documents_body_resolve] at h
    rw [add_documents_fst, add_documents_body_resolve]
    exact add_documents_body_dim split embed uuid st texts _ h

/-- C2 witness: the amended behaviour at concrete calls — a mismatched-arity
call leaves the state untouched, and the dimension-mismatch scenario keeps the
vector store while extending the inventory by the batch's chunks. -/
theorem C2_witness :
    (add_documents split0 embed0 uuid0 stWithStore ["a"] (some [])).1 =
      stWithStore ∧
    ((add_documents split0 embed_ab uuid0 st_after_a ["b"] none).1.vector_store =
        st_after_a.vector_store ∧
     (add_documents split0 embed_ab uuid0 st_after_a ["b"] none).1.documents =
       st_after_a.documents ++
         chunked_of split0
           (valid_pairs ["b"] (Option.getD none (gen_metadatas uuid0 ["b"])))) :=
  ⟨(C2_structural_error_state split0 embed0 uuid0 stWithStore ["a"] [] none).1
     (by decide),
   (C2_structural_error_state split0 embed_ab uuid0 st_after_a ["b"] [] none).2
     (by decide)⟩

/-- The synthesized metadata list has one entry per text. -/
theorem gen_metadatas_length (uuid : Nat → String) (texts : List String) :
    (gen_metadatas uuid texts).length = texts.length := by
  simp [gen_metadatas]

/-- When no text of the batch is empty or whitespace-only, the filtering loop
keeps every (text, metadata) pair. -/
theorem valid_pairs_all_kept (texts : List String)
    (ms : List (List (String × String)))
    (h : ∀ t ∈ texts, ¬ py_strip t = "") :
    valid_pairs texts ms = texts.zip ms := by
  unfold valid_pairs
  rw [List.filter_eq_self]
  intro p hp
  have hmem := (List.of_mem_zip hp).1
  simpa using h p.1 hmem

/-- Chunking each text of a batch and concatenating yields as many chunks as
chunking the texts alone: metadata pairing does not change the count. -/
theorem chunked_of_zip_length (split : String → List String)
    (texts : List String) (ms : List (List (String × String)))
    (h : texts.length = ms.length) :
    (chunked_of split (texts.zip ms)).length = (texts.flatMap split).length := by
  induction texts generalizing ms with
  | nil => simp [chunked_of]
  | cons t ts ih =>
    cases ms with
    | nil => simp at h
    | cons m ms2 =>
      have hih := ih ms2 (by simpa using h)
      simp only [List.zip_cons_cons, chunked_of, List.flatMap_cons,
        List.length_append, List.length_map] at hih ⊢
      omega

/-- C7: a call `add_documents([t1,...,tn])` (metadata synthesized) in which
every text is non-empty grows `get_document_count` by exactly the total number
of chunks the splitter produces across all the texts — whatever splitter and
embedder are configured, and whether or not the index insertion succeeds. -/
theorem C7_count_accounting (split : String → List String)
    (embed : String → List Int) (uuid : Nat → String) (st : RAGState)
    (texts : List String) (h : ∀ t ∈ texts, ¬ py_strip t = "") :
    get_document_count (add_documents split embed uuid st texts none).1 =
      get_document_count st + (texts.flatMap split).length := by
  rw [add_documents_fst, add_documents_body_resolve]
  simp only [Option.getD_none]
  unfold add_documents_body
  dsimp only
  rw [if_neg (by simp [gen_metadatas_length])]
  rw [valid_pairs_all_kept texts _ h]
  by_cases hz : texts.zip (gen_metadatas uuid texts) = []
  · rw [if_pos hz]
    have : texts = [] := by
      rcases List.zip_eq_nil_iff.mp hz with ht | hm
      · exact ht
      · have := gen_metadatas_length uuid texts
        rw [hm] at this
        exact List.length_eq_zero.mp this.symm
    subst this
    simp
  · rw [if_neg hz]
    unfold get_document_count
    rw [add_documents_insert_documents, List.length_append,
      chunked_of_zip_length split texts _ (gen_metadatas_length uuid texts).symm]

/-- C7 witness: adding two one-chunk documents to a fresh service grows the
count by two. -/
theorem C7_witness :
    get_document_count
        (add_documents split0 embed0 uuid0 RAGService_init ["a", "b"] none).1 =
      get_document_count RAGService_init + ((["a", "b"]).flatMap split0).length :=
  C7_count_accounting split0 embed0 uuid0 RAGService_init ["a", "b"] (by decide)

/-- The window recursion `splitChars` never returns an empty list: both of its branches produce at
least one window. -/
theorem splitChars_ne_nil (chunk_size step : Nat) (chars : List Char) :
    splitChars chunk_size step chars ≠ [] := by
  unfold splitChars
  split <;> simp

/-- C8: the chunker produces a non-empty chunk sequence for every non-empty
input, and for input strictly shorter than `chunk_size = 1000` it returns
exactly one chunk, the whole input. -/
theorem C8_chunker_basic (text : String) :
    (¬ text = "" → split_text text ≠ []) ∧
    (text.length < 1000 → split_text text = [text]) := by
  constructor
  · intro _
    unfold split_text
    simpa using splitChars_ne_nil 1000 (1000 - 200) text.data
  · intro h
    unfold split_text
    rw [splitChars]
    rw [dif_pos (Or.inl (by exact Nat.le_of_lt h))]
    rfl

/-- C8 witness: a short concrete text is one single chunk. -/
theorem C8_witness :
    split_text "hello" ≠ [] ∧ split_text "hello" = ["hello"] :=
  ⟨(C8_chunker_basic "hello").1 (by decide),
   (C8_chunker_basic "hello").2 (by decide)⟩

/-- The source's accumulation loop refines the spec's Context Assembler: the
running `current_tokens` counter corresponds to the spec's remaining budget
`max_tokens - current_tokens`. -/
theorem context_loop_eq_assembleSpec (docs : List Chunk)
    (max_tokens current : Int) :
    context_loop docs max_tokens current =
      assembleSpec (docs.map (fun d => d.page_content)) (max_tokens - current) := by
  induction docs generalizing current with
  | nil => rfl
  | cons doc rest ih =>
    simp only [context_loop, assembleSpec, List.map_cons]
    by_cases h :
        current + ((doc.page_content.length / 4 : Nat) : Int) ≤ max_tokens
    · have h2 : ((doc.page_content.length / 4 : Nat) : Int) ≤
          max_tokens - current := by omega
      rw [if_pos h, if_pos h2, ih]
      have h3 : max_tokens - (current + ((doc.page_content.length / 4 : Nat) : Int)) =
          max_tokens - current - ((doc.page_content.length / 4 : Nat) : Int) := by
        omega
      rw [h3]
    · have h2 : ¬ ((doc.page_content.length / 4 : Nat) : Int) ≤
          max_tokens - current := by omega
      rw [if_neg h, if_neg h2]

/-- C4: `get_relevant_context` searches with the fixed fan-out `k = 5` and
assembles greedily exactly as the spec's Context Assembler describes (token
estimate `len // 4`, full chunks while within budget, a
`(max_tokens - current_tokens) * 4`-character prefix of the first overflowing
chunk when that budget exceeds 100 characters and nothing otherwise,
termination at that chunk, segments joined by a double newline); moreover the
truncated prefix has exactly `remaining * 4` characters, because the
overflowing chunk is always longer than the remaining character budget. -/
theorem C4_context_assembly (idxSearch : VectorStore → List Int → Int → List Chunk)
    (embed : String → List Int) (st : RAGState) (q : String) (max_tokens : Int) :
    get_relevant_context idxSearch embed st q max_tokens =
      String.intercalate "\n\n"
        (assembleSpec
          ((similarity_search idxSearch embed st q 5).map
            (fun d => d.page_content))
          max_tokens) ∧
    (∀ (t : String) (remaining : Int),
      remaining < ((t.length / 4 : Nat) : Int) → remaining * 4 > 100 →
      (t.take (remaining * 4).toNat).length = (remaining * 4).toNat) := by
  constructor
  · unfold get_relevant_context
    rw [context_loop_eq_assembleSpec, sub_zero]
  · intro t remaining h1 h2
    have hd : t.length = t.data.length := rfl
    rw [String.take_eq]
    show (List.take (remaining * 4).toNat t.data).length = (remaining * 4).toNat
    rw [List.length_take]
    omega

/-- A 120-character text, used to witness the truncation arithmetic. -/
def longText : String := String.mk (List.replicate 120 'a')

/-- C4 witness: the assembly equation at a concrete service and query, and the
exact-prefix fact at a concrete overflowing chunk (120 characters, remaining
budget 26 tokens = 104 characters). -/
theorem C4_witness :
    get_relevant_context idxSearchConst embed0 stWithStore "hi" 10 =
      String.intercalate "\n\n"
        (assembleSpec
          ((similarity_search idxSearchConst embed0 stWithStore "hi" 5).map
            (fun d => d.page_content))
          10) ∧
    (longText.take ((26 : Int) * 4).toNat).length = ((26 : Int) * 4).toNat :=
  ⟨(C4_context_assembly idxSearchConst embed0 stWithStore "hi" 10).1,
   (C4_context_assembly idxSearchConst embed0 stWithStore "hi" 10).2 longText 26
     (by decide) (by decide)⟩

/-- A concrete hit whose content has surrounding whitespace, exposing both the
Portuguese `Fonte` header and the stripping of content. -/
def hitDoc : Chunk := ⟨" FastAPI e bom ", [("source", "doc1")]⟩

/-- C9: the claim's format fails on the code: a hit is rendered with the
Portuguese literal `"Fonte N (source-id):"` — not `"Source N (source-id):"` —
and the content is whitespace-stripped before being appended, so the claimed
rendering (`"Source 1 (doc1):"` followed by the raw content) differs from the
actual output. -/
theorem C9_counterexample :
    RAGSearchTool_search (.ok [hitDoc]) = "Fonte 1 (doc1):\nFastAPI e bom" ∧
    RAGSearchTool_search (.ok [hitDoc]) ≠ "Source 1 (doc1):\n FastAPI e bom " := by
  decide

/-- C9 (amended): the search tool always returns a string and never raises:
an exception from the underlying search yields the fixed error string carrying
the exception's message, an empty hit list yields the fixed Portuguese
no-relevant-information message, and hits are rendered as
`"Fonte N (source-id):"` followed by the hit's whitespace-stripped content,
joined by blank lines (`source-id` defaulting to `"Desconhecido"` when the
metadata has no `source` key). -/
theorem C9_search_tool_behaviour (docs : List Chunk) (msg : String) :
    RAGSearchTool_search (.error msg) =
      "Erro ao buscar na base de conhecimento: " ++ msg ∧
    RAGSearchTool_search (.ok []) = no_info_msg ∧
    (docs ≠ [] → RAGSearchTool_search (.ok docs) =
      String.intercalate "\n\n"
        (docs.mapIdx (fun i d =>
          "Fonte " ++ toString (i + 1) ++ " ("
            ++ ((d.metadata.lookup "source").getD "Desconhecido") ++ "):\n"
            ++ py_strip d.page_content))) := by
  refine ⟨rfl, rfl, ?_⟩
  intro h
  unfold RAGSearchTool_search
  dsimp only
  rw [if_neg h]
  unfold format_hits
  rw [List.mapIdx_eq_enum_map]
  rfl

/-- C9 witness: the amended rendering at a concrete hit list and a concrete
exception message. -/
theorem C9_witness :
    RAGSearchTool_search (.ok [hitDoc, ⟨"x", []⟩]) =
      String.intercalate "\n\n"
        (([hitDoc, ⟨"x", []⟩] : List Chunk).mapIdx (fun i d =>
          "Fonte " ++ toString (i + 1) ++ " ("
            ++ ((d.metadata.lookup "source").getD "Desconhecido") ++ "):\n"
            ++ py_strip d.page_content)) ∧
    RAGSearchTool_search (.error "boom") =
      "Erro ao buscar na base de conhecimento: boom" :=
  ⟨(C9_search_tool_behaviour [hitDoc, ⟨"x", []⟩] "boom").2.2 (by decide),
   (C9_search_tool_behaviour [hitDoc, ⟨"x", []⟩] "boom").1⟩
